import Mathlib

/-!
A verification development for a minimal unidirectional state container
(store with reducer-driven dispatch, copy-on-write listener snapshots,
right-to-left function composition, and middleware application).

The store's mutable closure variables (`currentReducer`, `currentState`,
`currentListeners`, `nextListeners`, `isDispatching`) are embedded as a
`StoreSt` record; listener and reducer bodies are embedded as a small
deep program type `Prog` over the store operations, interpreted by a
fuel-stratified interpreter (fuel bounds the nesting depth of reentrant
`dispatch` calls, which the source allows from listeners).
-/

namespace Redux

/-- A model of the dynamic values the source manipulates: primitives,
arrays and plain objects (association lists of fields). -/
inductive JSValue where
  | undef
  | nullV
  | boolV (b : Bool)
  | numV (n : Int)
  | strV (s : String)
  | arrV (elems : List JSValue)
  | objV (fields : List (String × JSValue))

/-- Property read `v[k]`: looks a field up in a plain object; absent
fields read as `undefined`.  (The source only reads `action.type` after
the plain-object check, so the non-object case is never reached there.) -/
def getField (v : JSValue) (k : String) : JSValue :=
  match v with
  | JSValue.objV fields =>
    match fields.lookup k with
    | some w => w
    | none => JSValue.undef
  | _ => JSValue.undef

/-- Modelled from the spec: the source imports `./utils/isPlainObject`,
which is not part of the given sources.  Per the spec it is "a plain
object predicate (distinguishes ordinary structured records from
arrays/class instances/null/primitives)". -/
def isPlainObject (v : JSValue) : Bool :=
  match v with
  | JSValue.objV _ => true
  | _ => false

/-- `typeof v === 'undefined'`. -/
def isUndefined (v : JSValue) : Bool :=
  match v with
  | JSValue.undef => true
  | _ => false

/-- Modelled from the spec: the source imports `./utils/actionTypes`,
which is not part of the given sources; the spec reserves an "init"
discriminator, namespaced to avoid collision. -/
def actionTypeInit : String := "@@redux/INIT"

/-- Modelled from the spec: the reserved "replace" discriminator
dispatched by `replaceReducer`. -/
def actionTypeReplace : String := "@@redux/REPLACE"

def plainObjectMsg : String :=
  "Actions must be plain objects. Use custom middleware for async actions."

def undefinedTypeMsg : String :=
  "Actions may not have an undefined \"type\" property. Have you misspelled a constant?"

def reentrantMsg : String := "Reducers may not dispatch actions."

def getStateGateMsg : String :=
  "You may not call store.getState() while the reducer is executing."

def subscribeGateMsg : String :=
  "You may not call store.subscribe() while the reducer is executing."

def unsubscribeGateMsg : String :=
  "You may not unsubscribe from a store listener while the reducer is executing."

/-- Artifact of the embedding only: result when the fuel bounding the
depth of reentrant dispatch nesting runs out.  No theorem relies on this
value; fueled statements use enough fuel for their scenario. -/
def fuelMsg : String := "OUT_OF_FUEL"

/-- Deep embedding of the client code the store runs (listener bodies and
reducer bodies): such code may return a value, raise an error, or call
the store's `subscribe`, an `unsubscribe` closure, or `dispatch`, and
continue with the call's outcome. Listeners are named by `Nat` identities
(function identity in the source); `unsubscribe` closures by the `Nat`
token that `subscribe` returned. -/
inductive Prog where
  | retV (v : JSValue)
  | throwErr (msg : String)
  | subscribeL (listener : Nat) (k : Except String Nat → Prog)
  | unsubscribeT (token : Nat) (k : Except String Unit → Prog)
  | dispatchA (action : JSValue) (k : Except String JSValue → Prog)

/-- A reducer body: given current state and action, a program computing
the next state (it may raise, or call back into the store, where every
such call fails because the dispatch gate is set). -/
abbrev Reducer := JSValue → JSValue → Prog

/-- The store's closure variables from the source, plus:
`tokens` models each returned `unsubscribe` closure (its captured
`listener` and its `isSubscribed` flag, keyed by a fresh token);
`invoked` is ghost instrumentation recording, in order, the listener
identities invoked by notification phases (used to state which listeners
a dispatch ran).  `ensureCanMutateNextListeners` (copy-on-write) needs no
counterpart: with list values, mutating `nextListeners` can never alias
into a committed `currentListeners` snapshot, which is exactly the
observable guarantee the copy-on-write provides. -/
structure StoreSt where
  currentReducer : Reducer
  currentState : JSValue
  currentListeners : List Nat
  nextListeners : List Nat
  isDispatching : Bool
  tokens : List (Nat × Nat × Bool)
  nextTokenId : Nat
  invoked : List Nat

/-- `getState`: fails while the dispatch gate is set, else returns the
current state. -/
def getState (st : StoreSt) : Except String JSValue :=
  if st.isDispatching then Except.error getStateGateMsg
  else Except.ok st.currentState

/-- `subscribe(listener)`: fails while the dispatch gate is set, else
appends the listener to the working list and returns a fresh token
standing for the `unsubscribe` closure (captured listener identity,
`isSubscribed = true`).  The source's `typeof listener` guard is a
dynamic-typing check with no counterpart here, where listeners are
identities into an environment of bodies. -/
def subscribe (listener : Nat) (st : StoreSt) : Except String Nat × StoreSt :=
  if st.isDispatching then
    (Except.error subscribeGateMsg, st)
  else
    (Except.ok st.nextTokenId,
      { st with
        nextListeners := st.nextListeners ++ [listener],
        tokens := st.tokens ++ [(st.nextTokenId, listener, true)],
        nextTokenId := st.nextTokenId + 1 })

/-- `Array.prototype.indexOf`: index of the first occurrence, `none` for
the source's `-1`. -/
def jsIndexOf (l : List Nat) (x : Nat) : Option Nat :=
  match l with
  | [] => none
  | a :: t => if a = x then some 0 else (jsIndexOf t x).map (· + 1)

/-- `splice(index, 1)` at the result of `indexOf`: removes the element at
a found index; at `-1` (`none`) it removes the last element (negative
indices count from the end). -/
def splice1 (l : List Nat) : Option Nat → List Nat
  | some i => l.eraseIdx i
  | none => l.dropLast

/-- The removal performed by the `unsubscribe` closure:
`indexOf` then `splice(index, 1)`. -/
def spliceOut (l : List Nat) (x : Nat) : List Nat :=
  splice1 l (jsIndexOf l x)

/-- Token lookup: the captured listener identity and `isSubscribed` flag
of an `unsubscribe` closure. -/
def lookupTok (tokens : List (Nat × Nat × Bool)) (t : Nat) : Option (Nat × Bool) :=
  tokens.lookup t

/-- Marks an `unsubscribe` closure's `isSubscribed` flag false. -/
def setTokUnsub : List (Nat × Nat × Bool) → Nat → List (Nat × Nat × Bool)
  | [], _ => []
  | (tid, lid, flag) :: rest, t =>
    (if tid = t then (tid, lid, false) else (tid, lid, flag)) :: setTokUnsub rest t

/-- The `unsubscribe` closure returned by `subscribe`: a repeated call
after the first returns immediately (`isSubscribed` already false); a
first call while the dispatch gate is set fails; otherwise it clears the
flag and removes the captured listener from the working list by
`indexOf`/`splice`.  (A token never issued behaves as a no-op; through
the API every closure's token exists in `tokens`.) -/
def unsubscribe (token : Nat) (st : StoreSt) : Except String Unit × StoreSt :=
  match lookupTok st.tokens token with
  | none => (Except.ok (), st)
  | some (listener, isSub) =>
    if isSub = false then
      (Except.ok (), st)
    else if st.isDispatching then
      (Except.error unsubscribeGateMsg, st)
    else
      (Except.ok (),
        { st with
          tokens := setTokUnsub st.tokens token,
          nextListeners := spliceOut st.nextListeners listener })

/-- Runs a client program against the store; `d` is the dispatch
implementation a `dispatchA` step calls (one fuel level below, see
`dispatch`). -/
def runProg (d : JSValue → StoreSt → Except String JSValue × StoreSt) :
    Prog → StoreSt → Except String JSValue × StoreSt
  | Prog.retV v, st => (Except.ok v, st)
  | Prog.throwErr m, st => (Except.error m, st)
  | Prog.subscribeL lid k, st =>
    match subscribe lid st with
    | (r, st1) => runProg d (k r) st1
  | Prog.unsubscribeT tok k, st =>
    match unsubscribe tok st with
    | (r, st1) => runProg d (k r) st1
  | Prog.dispatchA a k, st =>
    match d a st with
    | (r, st1) => runProg d (k r) st1

/-- The notification loop of `dispatch`: invokes, in order, every
listener of the committed snapshot (the list argument, fixed at commit
time, exactly as the source iterates the `listeners` constant by index);
an error from a listener propagates, skipping the rest.  Each invocation
is recorded in the ghost `invoked` log.  `env` maps listener identities
to their bodies. -/
def runListeners (env : Nat → Prog)
    (d : JSValue → StoreSt → Except String JSValue × StoreSt) :
    List Nat → StoreSt → Except String Unit × StoreSt
  | [], st => (Except.ok (), st)
  | lid :: rest, st =>
    match runProg d (env lid) { st with invoked := st.invoked ++ [lid] } with
    | (Except.error e, st1) => (Except.error e, st1)
    | (Except.ok _, st1) => runListeners env d rest st1

/-- One unfolding of `dispatch` (its body, with `d` the dispatch passed
to reentrant calls):
1. reject non-plain-object actions; 2. reject an undefined `type`;
3. reject while the dispatch gate is set; 4. set the gate, run the
reducer, store its result, clear the gate on both exit paths (the
source's `try`/`finally`); 5. commit the working listener list as the
snapshot and notify; 6. return the action. -/
def dispatchStep (env : Nat → Prog)
    (d : JSValue → StoreSt → Except String JSValue × StoreSt)
    (action : JSValue) (st : StoreSt) : Except String JSValue × StoreSt :=
  if isPlainObject action = false then
    (Except.error plainObjectMsg, st)
  else if isUndefined (getField action "type") then
    (Except.error undefinedTypeMsg, st)
  else if st.isDispatching then
    (Except.error reentrantMsg, st)
  else
    match runProg d (st.currentReducer st.currentState action)
        { st with isDispatching := true } with
    | (Except.error e, st2) => (Except.error e, { st2 with isDispatching := false })
    | (Except.ok v, st2) =>
      match runListeners env d
          { st2 with currentState := v, isDispatching := false,
                     currentListeners := st2.nextListeners }.nextListeners
          { st2 with currentState := v, isDispatching := false,
                     currentListeners := st2.nextListeners } with
      | (Except.error e, st5) => (Except.error e, st5)
      | (Except.ok _, st5) => (Except.ok action, st5)

/-- `dispatch`, stratified by the nesting depth of reentrant dispatch
calls (a listener may itself dispatch; the source recurses through the
live closure, the embedding through one fuel level less). -/
def dispatch (env : Nat → Prog) : Nat → JSValue → StoreSt → Except String JSValue × StoreSt
  | 0, _, st => (Except.error fuelMsg, st)
  | fuel + 1, action, st => dispatchStep env (dispatch env fuel) action st

/-- `createStore(reducer, preloadedState)` (base path, no enhancer):
initializes the closure variables and immediately dispatches the
reserved init action so the reducer reports its default state. -/
def createStore (env : Nat → Prog) (fuel : Nat) (reducer : Reducer)
    (preloadedState : JSValue) : Except String JSValue × StoreSt :=
  dispatch env fuel (JSValue.objV [("type", JSValue.strV actionTypeInit)])
    { currentReducer := reducer, currentState := preloadedState,
      currentListeners := [], nextListeners := [], isDispatching := false,
      tokens := [], nextTokenId := 0, invoked := [] }

/-- The argument of `replaceReducer`, keeping the source's dynamic
`typeof nextReducer !== 'function'` check statable: either an actual
reducer or a non-function value. -/
inductive ReducerArg where
  | fn (r : Reducer)
  | notFn (v : JSValue)

/-- `replaceReducer(nextReducer)`: rejects a non-function argument, else
swaps `currentReducer` and immediately dispatches the reserved replace
action (whose thrown errors propagate; the source returns `undefined`). -/
def replaceReducer (env : Nat → Prog) (fuel : Nat) (nextReducer : ReducerArg)
    (st : StoreSt) : Except String Unit × StoreSt :=
  match nextReducer with
  | ReducerArg.notFn _ => (Except.error "Expected the nextReducer to be a function.", st)
  | ReducerArg.fn r =>
    match dispatch env fuel (JSValue.objV [("type", JSValue.strV actionTypeReplace)])
        { st with currentReducer := r } with
    | (Except.error e, st1) => (Except.error e, st1)
    | (Except.ok _, st1) => (Except.ok (), st1)

/-- `compose(...funcs)`: zero functions give the identity; one function
is returned itself; otherwise `funcs.reduce((a, b) => (...args) =>
a(b(...args)))` (fold from the left with the first function as the
accumulator). -/
def compose {α : Type} : List (α → α) → α → α
  | [] => fun arg => arg
  | [f] => f
  | f :: rest => List.foldl (fun a b => fun args => a (b args)) f rest

/-- Follows the spec's words: `compose(f1, ..., fn)(x)` equals
`f1(f2(...fn(x)...))` — the rightmost function receives the original
argument, every other function exactly the previous result. -/
def composeSpec {α : Type} : List (α → α) → α → α
  | [], x => x
  | f :: fs, x => f (composeSpec fs x)

/-- A dispatch-shaped function for the middleware pipeline: takes the
action and an event log, returns the result and the extended log (the
log makes entry/exit order observable). -/
abbrev DFn := JSValue → List String → Except String JSValue × List String

/-- The fixed API object handed to each middleware.  In the source its
`dispatch` field is a late-bound indirection onto the enhanced dispatch
(initially a throwing placeholder); theorems therefore quantify over the
api value rather than fixing one. -/
structure MiddlewareAPI where
  getStateA : Unit → Except String JSValue
  dispatchA : DFn

/-- A middleware: given the api, maps the next dispatch stage to a
wrapped dispatch. -/
abbrev Middleware := MiddlewareAPI → DFn → DFn

/-- The placeholder dispatch in effect while the chain is being
constructed. -/
def constructingMsg : String :=
  "Dispatching while constructing your middleware is not allowed. Other middleware would not be applied to this dispatch."

def placeholderDispatch : DFn :=
  fun _ log => (Except.error constructingMsg, log)

/-- The enhanced dispatch `applyMiddleware(...middlewares)` installs on
the returned store: each middleware is given the api, and the collected
chain is composed (left-to-right order preserved) around the base
store's raw dispatch
(`dispatch = compose(...chain)(store.dispatch)`); the returned store is
the base store with only its `dispatch` replaced by this function. -/
def applyMiddlewareDispatch (middlewares : List Middleware)
    (api : MiddlewareAPI) (baseDispatch : DFn) : DFn :=
  compose (middlewares.map (fun middleware => middleware api)) baseDispatch

/-- A middleware that logs on entry and exit around calling `next`. -/
def logMW (name : String) : Middleware :=
  fun _api next => fun action log =>
    match next action (log ++ ["enter " ++ name]) with
    | (r, log1) => (r, log1 ++ ["exit " ++ name])

/-- A base dispatch that logs its invocation and returns the action (as
the store's raw dispatch does). -/
def baseLogDispatch : DFn :=
  fun action log => (Except.ok action, log ++ ["base"])

/-! ### Concrete environments, reducers and stores used by witnesses -/

def envNoop : Nat → Prog := fun _ => Prog.retV JSValue.undef

def identityReducer : Reducer := fun s _ => Prog.retV s

def throwingReducer (msg : String) : Reducer := fun _ _ => Prog.throwErr msg

/-- `(state = d, action) => state`: a reducer defaulting to `d` when the
incoming state is undefined. -/
def defaultingReducer (d : JSValue) : Reducer :=
  fun state _ => Prog.retV (match state with | JSValue.undef => d | s => s)

def reducer1 : Reducer := defaultingReducer (JSValue.objV [("x", JSValue.numV 1)])

def reducer2 : Reducer := defaultingReducer (JSValue.objV [("y", JSValue.numV 2)])

/-- A reducer that calls the store's own dispatch during its execution
and returns, as the next state, a string recording the inner call's
outcome. -/
def reducerInnerDispatch (aInner : JSValue) : Reducer :=
  fun _ _ => Prog.dispatchA aInner (fun r =>
    match r with
    | Except.error e => Prog.retV (JSValue.strV e)
    | Except.ok _ => Prog.retV (JSValue.strV "inner dispatch succeeded"))

/-- A reducer that calls the store's own dispatch during its execution
and rethrows the inner call's error. -/
def reducerInnerDispatchRethrow (aInner : JSValue) : Reducer :=
  fun _ _ => Prog.dispatchA aInner (fun r =>
    match r with
    | Except.error e => Prog.throwErr e
    | Except.ok _ => Prog.retV JSValue.undef)

def actA : JSValue := JSValue.objV [("type", JSValue.strV "A")]

/-- An idle store with equal committed and working listener lists. -/
def mkIdleStore (red : Reducer) (s : JSValue) (listeners : List Nat)
    (tks : List (Nat × Nat × Bool)) (ntid : Nat) : StoreSt :=
  { currentReducer := red, currentState := s, currentListeners := listeners,
    nextListeners := listeners, isDispatching := false, tokens := tks,
    nextTokenId := ntid, invoked := [] }

def envC1 : Nat → Prog := fun x =>
  if x = 0 then Prog.subscribeL 9 (fun _ => Prog.retV JSValue.undef)
  else Prog.retV JSValue.undef

def stC1 : StoreSt := mkIdleStore identityReducer JSValue.undef [1, 0, 2] [] 5

def envC2 : Nat → Prog := fun x =>
  if x = 0 then Prog.unsubscribeT 7 (fun _ => Prog.retV JSValue.undef)
  else Prog.retV JSValue.undef

def stC2 : StoreSt :=
  mkIdleStore identityReducer JSValue.undef [1, 0, 3, 2, 4] [(7, 2, true)] 8

def envC10 : Nat → Prog := fun x =>
  if x = 0 then Prog.throwErr "listener boom" else Prog.retV JSValue.undef

def stC10 : StoreSt := mkIdleStore identityReducer (JSValue.numV 0) [1, 0, 2] [] 0

def stC9 : StoreSt := mkIdleStore identityReducer JSValue.undef [3, 5, 4] [(0, 5, true)] 1

def stC9gate : StoreSt := { stC9 with isDispatching := true }

def stC4 : StoreSt := mkIdleStore (throwingReducer "reducer boom") (JSValue.numV 7) [0] [] 0

def stC3 : StoreSt := mkIdleStore identityReducer JSValue.undef [] [] 0

/-! ### Step lemmas for the interpreter (all definitional) -/

theorem runProg_retV (d : JSValue → StoreSt → Except String JSValue × StoreSt)
    (v : JSValue) (st : StoreSt) : runProg d (Prog.retV v) st = (Except.ok v, st) := rfl

theorem runProg_throwErr (d : JSValue → StoreSt → Except String JSValue × StoreSt)
    (m : String) (st : StoreSt) : runProg d (Prog.throwErr m) st = (Except.error m, st) := rfl

theorem runProg_subscribeL (d : JSValue → StoreSt → Except String JSValue × StoreSt)
    (lid : Nat) (k : Except String Nat → Prog) (st : StoreSt) :
    runProg d (Prog.subscribeL lid k) st =
      runProg d (k (subscribe lid st).1) (subscribe lid st).2 := rfl

theorem runProg_unsubscribeT (d : JSValue → StoreSt → Except String JSValue × StoreSt)
    (tok : Nat) (k : Except String Unit → Prog) (st : StoreSt) :
    runProg d (Prog.unsubscribeT tok k) st =
      runProg d (k (unsubscribe tok st).1) (unsubscribe tok st).2 := rfl

theorem runProg_dispatchA (d : JSValue → StoreSt → Except String JSValue × StoreSt)
    (a : JSValue) (k : Except String JSValue → Prog) (st : StoreSt) :
    runProg d (Prog.dispatchA a k) st = runProg d (k (d a st).1) (d a st).2 := rfl

theorem runListeners_nil (env : Nat → Prog)
    (d : JSValue → StoreSt → Except String JSValue × StoreSt) (st : StoreSt) :
    runListeners env d [] st = (Except.ok (), st) := rfl

theorem runListeners_cons (env : Nat → Prog)
    (d : JSValue → StoreSt → Except String JSValue × StoreSt)
    (x : Nat) (t : List Nat) (st : StoreSt) :
    runListeners env d (x :: t) st =
      (match (runProg d (env x) { st with invoked := st.invoked ++ [x] }).1 with
       | Except.error e =>
         (Except.error e, (runProg d (env x) { st with invoked := st.invoked ++ [x] }).2)
       | Except.ok _ =>
         runListeners env d t (runProg d (env x) { st with invoked := st.invoked ++ [x] }).2) := by
  rw [runListeners]
  rcases runProg d (env x) { st with invoked := st.invoked ++ [x] } with ⟨r, st1⟩
  cases r <;> rfl

theorem dispatch_succ (env : Nat → Prog) (fuel : Nat) (a : JSValue) (st : StoreSt) :
    dispatch env (fuel + 1) a st = dispatchStep env (dispatch env fuel) a st := rfl

/-! ### Frame and unfolding lemmas -/

theorem subscribe_gate (lid : Nat) (st : StoreSt) (h : st.isDispatching = true) :
    subscribe lid st = (Except.error subscribeGateMsg, st) := by
  simp [subscribe, h]

theorem unsubscribe_state_frame_gate (tok : Nat) (st : StoreSt)
    (h : st.isDispatching = true) : (unsubscribe tok st).2 = st := by
  unfold unsubscribe
  rcases lookupTok st.tokens tok with _ | ⟨lid, isSub⟩
  · rfl
  · cases isSub <;> simp [h]

theorem dispatch_state_frame_gate (env : Nat → Prog) (fuel : Nat) (a : JSValue)
    (st : StoreSt) (h : st.isDispatching = true) : (dispatch env fuel a st).2 = st := by
  cases fuel with
  | zero => rfl
  | succ n =>
    simp only [dispatch, dispatchStep]
    split
    · rfl
    · split
      · rfl
      · simp [h]

/-- While the dispatch gate is set, no client program can mutate the
store: every store call it makes fails (or is a no-op) before mutating. -/
theorem runProg_state_frame_gate
    (d : JSValue → StoreSt → Except String JSValue × StoreSt)
    (hd : ∀ a s, s.isDispatching = true → (d a s).2 = s)
    (p : Prog) : ∀ st : StoreSt, st.isDispatching = true → (runProg d p st).2 = st := by
  induction p with
  | retV v => intro st h; rfl
  | throwErr m => intro st h; rfl
  | subscribeL lid k ih =>
    intro st h
    rw [runProg_subscribeL, subscribe_gate lid st h]
    exact ih _ st h
  | unsubscribeT tok k ih =>
    intro st h
    rw [runProg_unsubscribeT, unsubscribe_state_frame_gate tok st h]
    exact ih _ st h
  | dispatchA a k ih =>
    intro st h
    rw [runProg_dispatchA, hd a st h]
    exact ih _ st h

/-- A reentrant `dispatch` of a well-formed action while the gate is set
fails with the reentrancy error, leaving the store unchanged. -/
theorem dispatch_gate_error (env : Nat → Prog) (fuel : Nat) (a : JSValue) (st : StoreSt)
    (h1 : isPlainObject a = true) (h2 : isUndefined (getField a "type") = false)
    (h : st.isDispatching = true) :
    dispatch env (fuel + 1) a st = (Except.error reentrantMsg, st) := by
  simp [dispatch, dispatchStep, h1, h2, h]

/-- Notifying a block of listeners whose bodies are pure no-ops just
records their invocations. -/
theorem runListeners_noop (env : Nat → Prog)
    (d : JSValue → StoreSt → Except String JSValue × StoreSt) (l : List Nat) :
    ∀ st : StoreSt, (∀ x ∈ l, env x = Prog.retV JSValue.undef) →
      runListeners env d l st = (Except.ok (), { st with invoked := st.invoked ++ l }) := by
  induction l with
  | nil => intro st _; rw [runListeners_nil]; simp
  | cons x t ih =>
    intro st h
    have hx : env x = Prog.retV JSValue.undef := h x (by simp)
    rw [runListeners_cons, hx, runProg_retV]
    rw [ih _ (fun y hy => h y (by simp [hy]))]
    simp

theorem runListeners_append_ok (env : Nat → Prog)
    (d : JSValue → StoreSt → Except String JSValue × StoreSt) (l1 l2 : List Nat) :
    ∀ (st st1 : StoreSt) (u : Unit), runListeners env d l1 st = (Except.ok u, st1) →
      runListeners env d (l1 ++ l2) st = runListeners env d l2 st1 := by
  induction l1 with
  | nil =>
    intro st st1 u h
    rw [runListeners_nil] at h
    cases h
    rfl
  | cons x t ih =>
    intro st st1 u h
    rw [runListeners_cons] at h
    rw [List.cons_append, runListeners_cons]
    rcases hr : (runProg d (env x) { st with invoked := st.invoked ++ [x] }).1 with e | w
    · rw [hr] at h
      exact absurd h (by simp)
    · rw [hr] at h
      exact ih _ st1 u h

theorem subscribe_idle (lid : Nat) (st : StoreSt) (h : st.isDispatching = false) :
    subscribe lid st =
      (Except.ok st.nextTokenId,
        { st with nextListeners := st.nextListeners ++ [lid],
                  tokens := st.tokens ++ [(st.nextTokenId, lid, true)],
                  nextTokenId := st.nextTokenId + 1 }) := by
  simp [subscribe, h]

theorem unsubscribe_live (tok : Nat) (st : StoreSt) (lid : Nat)
    (htok : lookupTok st.tokens tok = some (lid, true)) (h : st.isDispatching = false) :
    unsubscribe tok st =
      (Except.ok (),
        { st with tokens := setTokUnsub st.tokens tok,
                  nextListeners := spliceOut st.nextListeners lid }) := by
  unfold unsubscribe
  rw [htok]
  simp [h]

theorem unsubscribe_dead (tok : Nat) (st : StoreSt) (lid : Nat)
    (htok : lookupTok st.tokens tok = some (lid, false)) :
    unsubscribe tok st = (Except.ok (), st) := by
  unfold unsubscribe
  rw [htok]
  simp

theorem unsubscribe_gate_live (tok : Nat) (st : StoreSt) (lid : Nat)
    (htok : lookupTok st.tokens tok = some (lid, true)) (h : st.isDispatching = true) :
    unsubscribe tok st = (Except.error unsubscribeGateMsg, st) := by
  unfold unsubscribe
  rw [htok]
  simp [h]

theorem runListeners_cons_ok (env : Nat → Prog)
    (d : JSValue → StoreSt → Except String JSValue × StoreSt)
    (x : Nat) (t : List Nat) (st : StoreSt) (r : JSValue) (st1 : StoreSt)
    (hrun : runProg d (env x) { st with invoked := st.invoked ++ [x] } = (Except.ok r, st1)) :
    runListeners env d (x :: t) st = runListeners env d t st1 := by
  rw [runListeners_cons, hrun]

theorem runListeners_cons_error (env : Nat → Prog)
    (d : JSValue → StoreSt → Except String JSValue × StoreSt)
    (x : Nat) (t : List Nat) (st : StoreSt) (e : String) (st1 : StoreSt)
    (hrun : runProg d (env x) { st with invoked := st.invoked ++ [x] } = (Except.error e, st1)) :
    runListeners env d (x :: t) st = (Except.error e, st1) := by
  rw [runListeners_cons, hrun]

/-- Notification phase in which one listener `aId` subscribes a new
listener `bId` and every other listener of the snapshot is a no-op: all
snapshot members (and only they) are invoked; `bId` lands on the working
list (and gets a fresh token) without being notified. -/
theorem runListeners_scenario_subscribe (env : Nat → Prog)
    (d : JSValue → StoreSt → Except String JSValue × StoreSt)
    (pre rest : List Nat) (aId bId : Nat) (st : StoreSt)
    (hidle : st.isDispatching = false)
    (hA : env aId = Prog.subscribeL bId (fun _ => Prog.retV JSValue.undef))
    (hpre : ∀ x ∈ pre, env x = Prog.retV JSValue.undef)
    (hrest : ∀ x ∈ rest, env x = Prog.retV JSValue.undef) :
    runListeners env d (pre ++ aId :: rest) st =
      (Except.ok (),
        { st with nextListeners := st.nextListeners ++ [bId],
                  tokens := st.tokens ++ [(st.nextTokenId, bId, true)],
                  nextTokenId := st.nextTokenId + 1,
                  invoked := st.invoked ++ (pre ++ aId :: rest) }) := by
  obtain ⟨red, cs, cl, nl, gate, tks, ntid, inv⟩ := st
  obtain rfl : gate = false := hidle
  rw [runListeners_append_ok env d pre (aId :: rest) _ _ ()
    (runListeners_noop env d pre _ hpre)]
  have hrun : runProg d (env aId)
      { (StoreSt.mk red cs cl nl false tks ntid (inv ++ pre)) with
        invoked := (StoreSt.mk red cs cl nl false tks ntid (inv ++ pre)).invoked ++ [aId] }
      = (Except.ok JSValue.undef,
         StoreSt.mk red cs cl (nl ++ [bId]) false (tks ++ [(ntid, bId, true)]) (ntid + 1)
           ((inv ++ pre) ++ [aId])) := by
    rw [hA, runProg_subscribeL, subscribe_idle bId _ rfl]
    exact rfl
  rw [runListeners_cons_ok env d aId rest _ _ _ hrun]
  rw [runListeners_noop env d rest _ hrest]
  simp

/-- Notification phase in which listener `aId` calls the `unsubscribe`
closure of a live token for listener `cId`, and every other snapshot
member is a no-op: the whole snapshot — including `cId` when it sits in
the snapshot — is still invoked; the removal hits only the working list
and the token flag. -/
theorem runListeners_scenario_unsubscribe (env : Nat → Prog)
    (d : JSValue → StoreSt → Except String JSValue × StoreSt)
    (pre rest : List Nat) (aId tokC cId : Nat) (st : StoreSt)
    (hidle : st.isDispatching = false)
    (htok : lookupTok st.tokens tokC = some (cId, true))
    (hA : env aId = Prog.unsubscribeT tokC (fun _ => Prog.retV JSValue.undef))
    (hpre : ∀ x ∈ pre, env x = Prog.retV JSValue.undef)
    (hrest : ∀ x ∈ rest, env x = Prog.retV JSValue.undef) :
    runListeners env d (pre ++ aId :: rest) st =
      (Except.ok (),
        { st with tokens := setTokUnsub st.tokens tokC,
                  nextListeners := spliceOut st.nextListeners cId,
                  invoked := st.invoked ++ (pre ++ aId :: rest) }) := by
  obtain ⟨red, cs, cl, nl, gate, tks, ntid, inv⟩ := st
  obtain rfl : gate = false := hidle
  rw [runListeners_append_ok env d pre (aId :: rest) _ _ ()
    (runListeners_noop env d pre _ hpre)]
  have hrun : runProg d (env aId)
      { (StoreSt.mk red cs cl nl false tks ntid (inv ++ pre)) with
        invoked := (StoreSt.mk red cs cl nl false tks ntid (inv ++ pre)).invoked ++ [aId] }
      = (Except.ok JSValue.undef,
         StoreSt.mk red cs cl (spliceOut nl cId) false (setTokUnsub tks tokC) ntid
           ((inv ++ pre) ++ [aId])) := by
    have htokX : lookupTok
        ({ (StoreSt.mk red cs cl nl false tks ntid (inv ++ pre)) with
           invoked := (StoreSt.mk red cs cl nl false tks ntid (inv ++ pre)).invoked ++ [aId]
         } : StoreSt).tokens tokC = some (cId, true) := htok
    rw [hA, runProg_unsubscribeT, unsubscribe_live tokC _ cId htokX rfl]
    exact rfl
  rw [runListeners_cons_ok env d aId rest _ _ _ hrun]
  rw [runListeners_noop env d rest _ hrest]
  simp

/-- Notification phase in which listener `aId` calls an `unsubscribe`
closure whose token is already dead, and every other snapshot member is
a no-op: the call is a no-op and the phase only records invocations. -/
theorem runListeners_scenario_unsubscribe_dead (env : Nat → Prog)
    (d : JSValue → StoreSt → Except String JSValue × StoreSt)
    (pre rest : List Nat) (aId tokC cId : Nat) (st : StoreSt)
    (htok : lookupTok st.tokens tokC = some (cId, false))
    (hA : env aId = Prog.unsubscribeT tokC (fun _ => Prog.retV JSValue.undef))
    (hpre : ∀ x ∈ pre, env x = Prog.retV JSValue.undef)
    (hrest : ∀ x ∈ rest, env x = Prog.retV JSValue.undef) :
    runListeners env d (pre ++ aId :: rest) st =
      (Except.ok (), { st with invoked := st.invoked ++ (pre ++ aId :: rest) }) := by
  obtain ⟨red, cs, cl, nl, gate, tks, ntid, inv⟩ := st
  rw [runListeners_append_ok env d pre (aId :: rest) _ _ ()
    (runListeners_noop env d pre _ hpre)]
  have hrun : runProg d (env aId)
      { (StoreSt.mk red cs cl nl gate tks ntid (inv ++ pre)) with
        invoked := (StoreSt.mk red cs cl nl gate tks ntid (inv ++ pre)).invoked ++ [aId] }
      = (Except.ok JSValue.undef,
         StoreSt.mk red cs cl nl gate tks ntid ((inv ++ pre) ++ [aId])) := by
    have htokX : lookupTok
        ({ (StoreSt.mk red cs cl nl gate tks ntid (inv ++ pre)) with
           invoked := (StoreSt.mk red cs cl nl gate tks ntid (inv ++ pre)).invoked ++ [aId]
         } : StoreSt).tokens tokC = some (cId, false) := htok
    rw [hA, runProg_unsubscribeT, unsubscribe_dead tokC _ cId htokX]
    exact rfl
  rw [runListeners_cons_ok env d aId rest _ _ _ hrun]
  rw [runListeners_noop env d rest _ hrest]
  simp

/-- Notification phase in which listener `tId` raises and every listener
before it is a no-op: the error propagates at `tId`; the listeners after
it are not invoked. -/
theorem runListeners_scenario_throw (env : Nat → Prog)
    (d : JSValue → StoreSt → Except String JSValue × StoreSt)
    (pre post : List Nat) (tId : Nat) (msg : String) (st : StoreSt)
    (hT : env tId = Prog.throwErr msg)
    (hpre : ∀ x ∈ pre, env x = Prog.retV JSValue.undef) :
    runListeners env d (pre ++ tId :: post) st =
      (Except.error msg, { st with invoked := st.invoked ++ (pre ++ [tId]) }) := by
  obtain ⟨red, cs, cl, nl, gate, tks, ntid, inv⟩ := st
  rw [runListeners_append_ok env d pre (tId :: post) _ _ ()
    (runListeners_noop env d pre _ hpre)]
  have hrun : runProg d (env tId)
      { (StoreSt.mk red cs cl nl gate tks ntid (inv ++ pre)) with
        invoked := (StoreSt.mk red cs cl nl gate tks ntid (inv ++ pre)).invoked ++ [tId] }
      = (Except.error msg,
         StoreSt.mk red cs cl nl gate tks ntid ((inv ++ pre) ++ [tId])) := by
    rw [hT, runProg_throwErr]
  rw [runListeners_cons_error env d tId post _ _ _ hrun]
  simp

theorem jsIndexOf_append_cons (l1 l2 : List Nat) (x : Nat) (h : x ∉ l1) :
    jsIndexOf (l1 ++ x :: l2) x = some l1.length := by
  induction l1 with
  | nil => simp [jsIndexOf]
  | cons a t ih =>
    have hax : ¬(a = x) := fun he => h (he ▸ List.mem_cons_self a t)
    have hxt : x ∉ t := fun hm => h (List.mem_cons_of_mem a hm)
    rw [List.cons_append]
    rw [show jsIndexOf (a :: (t ++ x :: l2)) x
      = if a = x then some 0 else (jsIndexOf (t ++ x :: l2) x).map (· + 1) from rfl]
    rw [if_neg hax, ih hxt]
    rfl

theorem eraseIdx_append_cons (l1 : List Nat) (x : Nat) (l2 : List Nat) :
    (l1 ++ x :: l2).eraseIdx l1.length = l1 ++ l2 := by
  induction l1 with
  | nil => rfl
  | cons a t ih => simpa [List.eraseIdx] using ih

/-- Removing by `indexOf`/`splice` deletes exactly the first occurrence. -/
theorem spliceOut_append_cons (l1 l2 : List Nat) (x : Nat) (h : x ∉ l1) :
    spliceOut (l1 ++ x :: l2) x = l1 ++ l2 := by
  unfold spliceOut
  rw [jsIndexOf_append_cons l1 l2 x h]
  exact eraseIdx_append_cons l1 x l2

theorem lookupTok_setTokUnsub (ts : List (Nat × Nat × Bool)) (t lid : Nat) (b : Bool)
    (h : lookupTok ts t = some (lid, b)) :
    lookupTok (setTokUnsub ts t) t = some (lid, false) := by
  induction ts with
  | nil => simp [lookupTok, List.lookup] at h
  | cons e rest ih =>
    rcases e with ⟨t', l', b'⟩
    rw [show setTokUnsub ((t', l', b') :: rest) t
      = (if t' = t then (t', l', false) else (t', l', b')) :: setTokUnsub rest t from rfl]
    by_cases ht : t' = t
    · subst ht
      rw [if_pos rfl]
      rw [show lookupTok ((t', l', b') :: rest) t' = some (l', b') from by
        simp [lookupTok, List.lookup]] at h
      obtain ⟨rfl, rfl⟩ : l' = lid ∧ b' = b := by
        simp only [Option.some.injEq, Prod.mk.injEq] at h
        exact h
      simp [lookupTok, List.lookup]
    · have hne : (t == t') = false := by
        rw [beq_eq_false_iff_ne]
        exact fun hc => ht hc.symm
      rw [if_neg ht]
      rw [show lookupTok ((t', l', b') :: setTokUnsub rest t) t
        = lookupTok (setTokUnsub rest t) t from by simp [lookupTok, List.lookup, hne]]
      rw [show lookupTok ((t', l', b') :: rest) t = lookupTok rest t from by
        simp [lookupTok, List.lookup, hne]] at h
      exact ih h

theorem dispatchStep_valid (env : Nat → Prog)
    (d : JSValue → StoreSt → Except String JSValue × StoreSt) (a : JSValue) (st : StoreSt)
    (h1 : isPlainObject a = true) (h2 : isUndefined (getField a "type") = false)
    (h3 : st.isDispatching = false) :
    dispatchStep env d a st =
      (match runProg d (st.currentReducer st.currentState a)
          { st with isDispatching := true } with
       | (Except.error e, st2) => (Except.error e, { st2 with isDispatching := false })
       | (Except.ok v, st2) =>
         match runListeners env d
             { st2 with currentState := v, isDispatching := false,
                        currentListeners := st2.nextListeners }.nextListeners
             { st2 with currentState := v, isDispatching := false,
                        currentListeners := st2.nextListeners } with
         | (Except.error e, st5) => (Except.error e, st5)
         | (Except.ok _, st5) => (Except.ok a, st5)) := by
  unfold dispatchStep
  rw [if_neg (by simp [h1]), if_neg (by simp [h2]), if_neg (by simp [h3])]

/-- Master unfolding for a dispatch whose reducer returns normally with
value `v`: the reducer phase leaves the store untouched apart from the
gate, the working listener list is committed, and the outcome is that of
the notification loop over the committed snapshot. -/
theorem dispatch_reducer_ok (env : Nat → Prog) (fuel : Nat) (a : JSValue) (st : StoreSt)
    (v : JSValue) (hidle : st.isDispatching = false) (h1 : isPlainObject a = true)
    (h2 : isUndefined (getField a "type") = false)
    (hred : (runProg (dispatch env fuel) (st.currentReducer st.currentState a)
      { st with isDispatching := true }).1 = Except.ok v) :
    dispatch env (fuel + 1) a st =
      (match runListeners env (dispatch env fuel) st.nextListeners
          { st with currentState := v, currentListeners := st.nextListeners } with
       | (Except.error e, st5) => (Except.error e, st5)
       | (Except.ok _, st5) => (Except.ok a, st5)) := by
  obtain ⟨red, cs, cl, nl, gate, tks, ntid, inv⟩ := st
  obtain rfl : gate = false := hidle
  have hframe := runProg_state_frame_gate (dispatch env fuel)
    (fun a s hs => dispatch_state_frame_gate env fuel a s hs)
    (red cs a) (StoreSt.mk red cs cl nl true tks ntid inv) rfl
  rw [dispatch_succ, dispatchStep_valid env (dispatch env fuel) a _ h1 h2 rfl]
  rcases hrp : runProg (dispatch env fuel) (red cs a)
      (StoreSt.mk red cs cl nl true tks ntid inv) with ⟨r, st2⟩
  rw [hrp] at hred hframe
  obtain rfl : r = Except.ok v := hred
  obtain rfl : st2 = StoreSt.mk red cs cl nl true tks ntid inv := hframe
  rfl

/-- Master unfolding for a dispatch whose reducer raises: the error
propagates and the store is exactly as before the dispatch (gate clear,
state unchanged, no listener notified). -/
theorem dispatch_reducer_error (env : Nat → Prog) (fuel : Nat) (a : JSValue) (st : StoreSt)
    (e : String) (hidle : st.isDispatching = false) (h1 : isPlainObject a = true)
    (h2 : isUndefined (getField a "type") = false)
    (hred : (runProg (dispatch env fuel) (st.currentReducer st.currentState a)
      { st with isDispatching := true }).1 = Except.error e) :
    dispatch env (fuel + 1) a st = (Except.error e, st) := by
  obtain ⟨red, cs, cl, nl, gate, tks, ntid, inv⟩ := st
  obtain rfl : gate = false := hidle
  have hframe := runProg_state_frame_gate (dispatch env fuel)
    (fun a s hs => dispatch_state_frame_gate env fuel a s hs)
    (red cs a) (StoreSt.mk red cs cl nl true tks ntid inv) rfl
  rw [dispatch_succ, dispatchStep_valid env (dispatch env fuel) a _ h1 h2 rfl]
  rcases hrp : runProg (dispatch env fuel) (red cs a)
      (StoreSt.mk red cs cl nl true tks ntid inv) with ⟨r, st2⟩
  rw [hrp] at hred hframe
  obtain rfl : r = Except.error e := hred
  obtain rfl : st2 = StoreSt.mk red cs cl nl true tks ntid inv := hframe
  rfl

theorem compose_foldl (α : Type) (l : List (α → α)) :
    ∀ (a : α → α) (x : α),
      List.foldl (fun a b => fun args => a (b args)) a l x = a (composeSpec l x) := by
  induction l with
  | nil => intro a x; rfl
  | cons b t ih =>
    intro a x
    rw [List.foldl_cons, ih]
    rfl

theorem subscribe_reducer_frame (lid : Nat) (st : StoreSt) :
    ((subscribe lid st).2).currentReducer = st.currentReducer := by
  by_cases hb : st.isDispatching <;> simp [subscribe, hb]

theorem unsubscribe_reducer_frame (tok : Nat) (st : StoreSt) :
    ((unsubscribe tok st).2).currentReducer = st.currentReducer := by
  unfold unsubscribe
  rcases lookupTok st.tokens tok with _ | ⟨l, b⟩
  · rfl
  · cases b <;> by_cases hb : st.isDispatching <;> simp [hb]

/-- Client programs never change the installed reducer (no store
operation writes `currentReducer`). -/
theorem runProg_reducer_frame
    (d : JSValue → StoreSt → Except String JSValue × StoreSt)
    (hd : ∀ a s, ((d a s).2).currentReducer = s.currentReducer)
    (p : Prog) : ∀ st : StoreSt, ((runProg d p st).2).currentReducer = st.currentReducer := by
  induction p with
  | retV v => intro st; rfl
  | throwErr m => intro st; rfl
  | subscribeL lid k ih =>
    intro st
    rw [runProg_subscribeL, ih _ _]
    exact subscribe_reducer_frame lid st
  | unsubscribeT tok k ih =>
    intro st
    rw [runProg_unsubscribeT, ih _ _]
    exact unsubscribe_reducer_frame tok st
  | dispatchA a k ih =>
    intro st
    rw [runProg_dispatchA, ih _ _]
    exact hd a st

theorem runListeners_reducer_frame (env : Nat → Prog)
    (d : JSValue → StoreSt → Except String JSValue × StoreSt)
    (hd : ∀ a s, ((d a s).2).currentReducer = s.currentReducer)
    (l : List Nat) :
    ∀ st : StoreSt, ((runListeners env d l st).2).currentReducer = st.currentReducer := by
  induction l with
  | nil => intro st; rfl
  | cons x t ih =>
    intro st
    rw [runListeners_cons]
    rcases (runProg d (env x) { st with invoked := st.invoked ++ [x] }).1 with e | w
    · exact runProg_reducer_frame d hd (env x) _
    · exact (ih _).trans (runProg_reducer_frame d hd (env x) _)

/-- `dispatch` never changes the installed reducer. -/
theorem dispatch_reducer_frame (env : Nat → Prog) :
    ∀ (fuel : Nat) (a : JSValue) (st : StoreSt),
      ((dispatch env fuel a st).2).currentReducer = st.currentReducer := by
  intro fuel
  induction fuel with
  | zero => intro a st; rfl
  | succ n ih =>
    intro a st
    rw [dispatch_succ]
    unfold dispatchStep
    split
    · rfl
    · split
      · rfl
      · split
        · rfl
        · rcases hrp : runProg (dispatch env n) (st.currentReducer st.currentState a)
              { st with isDispatching := true } with ⟨r, st2⟩
          have hst2 : st2.currentReducer = st.currentReducer := by
            have hf := runProg_reducer_frame (dispatch env n) (fun a s => ih a s)
              (st.currentReducer st.currentState a) { st with isDispatching := true }
            rw [hrp] at hf
            exact hf
          cases r with
          | error e => exact hst2
          | ok v =>
            have hfl : ∀ (L : List Nat) (s : StoreSt), s.currentReducer = st.currentReducer →
                ((match runListeners env (dispatch env n) L s with
                  | (Except.error e, st5) => (Except.error e, st5)
                  | (Except.ok _, st5) => (Except.ok a, st5)).2).currentReducer
                  = st.currentReducer := by
              intro L s hs
              have hf := runListeners_reducer_frame env (dispatch env n) (fun a s => ih a s) L s
              rcases hrl : runListeners env (dispatch env n) L s with ⟨lr, st5⟩
              rw [hrl] at hf
              cases lr with
              | error e => exact hf.trans hs
              | ok u => exact hf.trans hs
            exact hfl _ _ hst2

/-- `dispatch_reducer_ok` restated over an explicit store record (same
statement up to definitional unfolding; convenient for computation). -/
theorem dispatch_reducer_ok_mk (env : Nat → Prog) (fuel : Nat) (a : JSValue)
    (red : Reducer) (cs : JSValue) (cl nl : List Nat) (tks : List (Nat × Nat × Bool))
    (ntid : Nat) (inv : List Nat) (v : JSValue)
    (h1 : isPlainObject a = true) (h2 : isUndefined (getField a "type") = false)
    (hred : (runProg (dispatch env fuel) (red cs a)
      (StoreSt.mk red cs cl nl true tks ntid inv)).1 = Except.ok v) :
    dispatch env (fuel + 1) a (StoreSt.mk red cs cl nl false tks ntid inv) =
      (match runListeners env (dispatch env fuel) nl
          (StoreSt.mk red v nl nl false tks ntid inv) with
       | (Except.error e, st5) => (Except.error e, st5)
       | (Except.ok _, st5) => (Except.ok a, st5)) :=
  dispatch_reducer_ok env fuel a (StoreSt.mk red cs cl nl false tks ntid inv) v rfl h1 h2 hred

/-- Full dispatch in which one snapshot listener subscribes a new
listener `bId` and everything else (reducer, other listeners) is pure:
the dispatch succeeds, notifies exactly the committed snapshot, and
leaves `bId` registered on the working list for the next dispatch. -/
theorem dispatch_scenario_subscribe (env : Nat → Prog) (fuel : Nat) (st : StoreSt)
    (a : JSValue) (f : JSValue → JSValue → JSValue) (pre rest : List Nat) (aId bId : Nat)
    (hidle : st.isDispatching = false)
    (hsnap : st.nextListeners = pre ++ aId :: rest)
    (hR : st.currentReducer = fun s act => Prog.retV (f s act))
    (h1 : isPlainObject a = true) (h2 : isUndefined (getField a "type") = false)
    (hA : env aId = Prog.subscribeL bId (fun _ => Prog.retV JSValue.undef))
    (hpre : ∀ x ∈ pre, env x = Prog.retV JSValue.undef)
    (hrest : ∀ x ∈ rest, env x = Prog.retV JSValue.undef) :
    dispatch env (fuel + 1) a st =
      (Except.ok a,
        { st with currentState := f st.currentState a,
                  currentListeners := pre ++ aId :: rest,
                  nextListeners := (pre ++ aId :: rest) ++ [bId],
                  tokens := st.tokens ++ [(st.nextTokenId, bId, true)],
                  nextTokenId := st.nextTokenId + 1,
                  invoked := st.invoked ++ (pre ++ aId :: rest) }) := by
  obtain ⟨red, cs, cl, nl, gate, tks, ntid, inv⟩ := st
  obtain rfl : gate = false := hidle
  obtain rfl : nl = pre ++ aId :: rest := hsnap
  obtain rfl : red = fun s act => Prog.retV (f s act) := hR
  rw [dispatch_reducer_ok_mk env fuel a (fun s act => Prog.retV (f s act)) cs cl
    (pre ++ aId :: rest) tks ntid inv (f cs a) h1 h2 rfl]
  rw [runListeners_scenario_subscribe env (dispatch env fuel) pre rest aId bId
    (StoreSt.mk (fun s act => Prog.retV (f s act)) (f cs a) (pre ++ aId :: rest)
      (pre ++ aId :: rest) false tks ntid inv) rfl hA hpre hrest]

/-- Full dispatch in which one snapshot listener `aId` unsubscribes the
live token of listener `cId` and everything else is pure: the dispatch
succeeds, still notifies the whole committed snapshot (including `cId`
when it is in the snapshot), and removes `cId`'s first occurrence from
the working list only. -/
theorem dispatch_scenario_unsubscribe (env : Nat → Prog) (fuel : Nat) (st : StoreSt)
    (a : JSValue) (f : JSValue → JSValue → JSValue) (pre rest : List Nat)
    (aId tokC cId : Nat)
    (hidle : st.isDispatching = false)
    (hsnap : st.nextListeners = pre ++ aId :: rest)
    (hR : st.currentReducer = fun s act => Prog.retV (f s act))
    (h1 : isPlainObject a = true) (h2 : isUndefined (getField a "type") = false)
    (htok : lookupTok st.tokens tokC = some (cId, true))
    (hA : env aId = Prog.unsubscribeT tokC (fun _ => Prog.retV JSValue.undef))
    (hpre : ∀ x ∈ pre, env x = Prog.retV JSValue.undef)
    (hrest : ∀ x ∈ rest, env x = Prog.retV JSValue.undef) :
    dispatch env (fuel + 1) a st =
      (Except.ok a,
        { st with currentState := f st.currentState a,
                  currentListeners := pre ++ aId :: rest,
                  nextListeners := spliceOut (pre ++ aId :: rest) cId,
                  tokens := setTokUnsub st.tokens tokC,
                  invoked := st.invoked ++ (pre ++ aId :: rest) }) := by
  obtain ⟨red, cs, cl, nl, gate, tks, ntid, inv⟩ := st
  obtain rfl : gate = false := hidle
  obtain rfl : nl = pre ++ aId :: rest := hsnap
  obtain rfl : red = fun s act => Prog.retV (f s act) := hR
  rw [dispatch_reducer_ok_mk env fuel a (fun s act => Prog.retV (f s act)) cs cl
    (pre ++ aId :: rest) tks ntid inv (f cs a) h1 h2 rfl]
  rw [runListeners_scenario_unsubscribe env (dispatch env fuel) pre rest aId tokC cId
    (StoreSt.mk (fun s act => Prog.retV (f s act)) (f cs a) (pre ++ aId :: rest)
      (pre ++ aId :: rest) false tks ntid inv) rfl htok hA hpre hrest]

/-- Full dispatch in which one snapshot listener `aId` calls an already
dead `unsubscribe` closure and everything else is pure: the call is a
no-op; the dispatch notifies exactly the committed snapshot. -/
theorem dispatch_scenario_unsubscribe_dead (env : Nat → Prog) (fuel : Nat) (st : StoreSt)
    (a : JSValue) (f : JSValue → JSValue → JSValue) (pre rest : List Nat)
    (aId tokC cId : Nat)
    (hidle : st.isDispatching = false)
    (hsnap : st.nextListeners = pre ++ aId :: rest)
    (hR : st.currentReducer = fun s act => Prog.retV (f s act))
    (h1 : isPlainObject a = true) (h2 : isUndefined (getField a "type") = false)
    (htok : lookupTok st.tokens tokC = some (cId, false))
    (hA : env aId = Prog.unsubscribeT tokC (fun _ => Prog.retV JSValue.undef))
    (hpre : ∀ x ∈ pre, env x = Prog.retV JSValue.undef)
    (hrest : ∀ x ∈ rest, env x = Prog.retV JSValue.undef) :
    dispatch env (fuel + 1) a st =
      (Except.ok a,
        { st with currentState := f st.currentState a,
                  currentListeners := pre ++ aId :: rest,
                  invoked := st.invoked ++ (pre ++ aId :: rest) }) := by
  obtain ⟨red, cs, cl, nl, gate, tks, ntid, inv⟩ := st
  obtain rfl : gate = false := hidle
  obtain rfl : nl = pre ++ aId :: rest := hsnap
  obtain rfl : red = fun s act => Prog.retV (f s act) := hR
  rw [dispatch_reducer_ok_mk env fuel a (fun s act => Prog.retV (f s act)) cs cl
    (pre ++ aId :: rest) tks ntid inv (f cs a) h1 h2 rfl]
  rw [runListeners_scenario_unsubscribe_dead env (dispatch env fuel) pre rest aId tokC cId
    (StoreSt.mk (fun s act => Prog.retV (f s act)) (f cs a) (pre ++ aId :: rest)
      (pre ++ aId :: rest) false tks ntid inv) htok hA hpre hrest]

/-! ### Claims -/

/-- C4: for every store and valid action whose reducer invocation raises
an error during dispatch, the error propagates to the dispatch caller and
the resulting store is exactly the pre-dispatch store: the Dispatch Gate
is cleared on this exit path (`st.isDispatching = false`), `currentState`
is unchanged, no listener is invoked (the `invoked` log is unchanged),
and the store remains usable (idle, prior state retained). -/
theorem c4_failing_reducer_leaves_store_intact (env : Nat → Prog) (fuel : Nat)
    (st : StoreSt) (action : JSValue) (msg : String)
    (hidle : st.isDispatching = false)
    (h1 : isPlainObject action = true)
    (h2 : isUndefined (getField action "type") = false)
    (hred : (runProg (dispatch env fuel) (st.currentReducer st.currentState action)
      { st with isDispatching := true }).1 = Except.error msg) :
    dispatch env (fuel + 1) action st = (Except.error msg, st) :=
  dispatch_reducer_error env fuel action st msg hidle h1 h2 hred

theorem c4_failing_reducer_leaves_store_intact_witness :
    dispatch envNoop 1 actA stC4 = (Except.error "reducer boom", stC4) :=
  c4_failing_reducer_leaves_store_intact envNoop 0 stC4 actA "reducer boom" rfl rfl rfl rfl

/-- C7: dispatch of a value that is not a plain object fails with the
"must be plain objects" error, and dispatch of a plain object whose
`type` field is undefined fails with the undefined-type error; in both
cases the resulting store is exactly the argument store, so the failure
happened before the reducer ran (`currentState` unchanged) and no
listener ran (`invoked` unchanged). -/
theorem c7_malformed_action_rejected (env : Nat → Prog) (fuel : Nat)
    (action : JSValue) (st : StoreSt) :
    (isPlainObject action = false →
      dispatch env (fuel + 1) action st = (Except.error plainObjectMsg, st))
    ∧ (isPlainObject action = true → isUndefined (getField action "type") = true →
      dispatch env (fuel + 1) action st = (Except.error undefinedTypeMsg, st)) := by
  constructor
  · intro h
    simp [dispatch, dispatchStep, h]
  · intro hp ht
    simp [dispatch, dispatchStep, hp, ht]

theorem c7_malformed_action_rejected_witness :
    dispatch envNoop 1 (JSValue.numV 42) stC1 = (Except.error plainObjectMsg, stC1)
    ∧ dispatch envNoop 1 (JSValue.arrV []) stC1 = (Except.error plainObjectMsg, stC1)
    ∧ dispatch envNoop 1 JSValue.nullV stC1 = (Except.error plainObjectMsg, stC1)
    ∧ dispatch envNoop 1 (JSValue.objV []) stC1 = (Except.error undefinedTypeMsg, stC1) :=
  ⟨(c7_malformed_action_rejected envNoop 0 (JSValue.numV 42) stC1).1 rfl,
   (c7_malformed_action_rejected envNoop 0 (JSValue.arrV []) stC1).1 rfl,
   (c7_malformed_action_rejected envNoop 0 JSValue.nullV stC1).1 rfl,
   (c7_malformed_action_rejected envNoop 0 (JSValue.objV []) stC1).2 rfl rfl⟩

/-- C3: a reducer that calls the store's dispatch during its own
execution sees that inner call fail with the "Reducers may not dispatch
actions." error, and the inner call does not corrupt the store: if the
reducer then completes (recording the inner outcome as the next state),
the outer dispatch succeeds, `currentState` is exactly the reducer's
return value (here the recorded gate-error text, showing the inner call
failed with precisely that error), and the gate is clear; if the reducer
rethrows, the outer dispatch propagates that error and the store is
exactly the pre-dispatch store (gate clear, state uncorrupted). -/
theorem c3_reentrant_dispatch_forbidden (env : Nat → Prog) (fuel : Nat) (st : StoreSt)
    (aOuter aInner : JSValue)
    (hidle : st.isDispatching = false) (hnl : st.nextListeners = [])
    (ho1 : isPlainObject aOuter = true) (ho2 : isUndefined (getField aOuter "type") = false)
    (hi1 : isPlainObject aInner = true) (hi2 : isUndefined (getField aInner "type") = false) :
    dispatch env (fuel + 1 + 1) aOuter { st with currentReducer := reducerInnerDispatch aInner }
      = (Except.ok aOuter,
         { st with currentReducer := reducerInnerDispatch aInner,
                   currentState := JSValue.strV reentrantMsg,
                   currentListeners := [] })
    ∧ dispatch env (fuel + 1 + 1) aOuter
        { st with currentReducer := reducerInnerDispatchRethrow aInner }
      = (Except.error reentrantMsg,
         { st with currentReducer := reducerInnerDispatchRethrow aInner }) := by
  obtain ⟨red, cs, cl, nl, gate, tks, ntid, inv⟩ := st
  obtain rfl : gate = false := hidle
  obtain rfl : nl = [] := hnl
  constructor
  · have hred1 : (runProg (dispatch env (fuel + 1)) (reducerInnerDispatch aInner cs aOuter)
        (StoreSt.mk (reducerInnerDispatch aInner) cs cl [] true tks ntid inv)).1
        = Except.ok (JSValue.strV reentrantMsg) := by
      simp only [reducerInnerDispatch]
      rw [runProg_dispatchA,
        dispatch_gate_error env fuel aInner
          (StoreSt.mk (reducerInnerDispatch aInner) cs cl [] true tks ntid inv) hi1 hi2 rfl]
      exact rfl
    rw [dispatch_reducer_ok_mk env (fuel + 1) aOuter (reducerInnerDispatch aInner) cs cl []
      tks ntid inv (JSValue.strV reentrantMsg) ho1 ho2 hred1]
    exact rfl
  · have hred2 : (runProg (dispatch env (fuel + 1))
        (reducerInnerDispatchRethrow aInner cs aOuter)
        ({ (StoreSt.mk (reducerInnerDispatchRethrow aInner) cs cl [] false tks ntid inv)
           with isDispatching := true }) ).1
        = Except.error reentrantMsg := by
      simp only [reducerInnerDispatchRethrow]
      rw [runProg_dispatchA,
        dispatch_gate_error env fuel aInner
          ({ (StoreSt.mk (reducerInnerDispatchRethrow aInner) cs cl [] false tks ntid inv)
             with isDispatching := true }) hi1 hi2 rfl]
      exact rfl
    exact dispatch_reducer_error env (fuel + 1) aOuter
      (StoreSt.mk (reducerInnerDispatchRethrow aInner) cs cl [] false tks ntid inv)
      reentrantMsg rfl ho1 ho2 hred2

theorem c3_reentrant_dispatch_forbidden_witness :
    dispatch envNoop 2 actA { stC3 with currentReducer := reducerInnerDispatch actA }
      = (Except.ok actA,
         { stC3 with currentReducer := reducerInnerDispatch actA,
                     currentState := JSValue.strV reentrantMsg,
                     currentListeners := [] })
    ∧ dispatch envNoop 2 actA { stC3 with currentReducer := reducerInnerDispatchRethrow actA }
      = (Except.error reentrantMsg,
         { stC3 with currentReducer := reducerInnerDispatchRethrow actA }) :=
  c3_reentrant_dispatch_forbidden envNoop 0 stC3 actA actA rfl rfl rfl rfl rfl rfl

/-- C9: the `unsubscribe` closure for a live token (of listener `lid`,
whose first occurrence in the working list is at the split
`l1 ++ lid :: l2`): the first call in the Idle state removes exactly that
first occurrence by identity and marks the token dead; calling the same
closure again on the resulting store is a no-op with no error and no
second removal; and calling a live closure while the Dispatch Gate is
set fails with an error (store unchanged). -/
theorem c9_unsubscribe_idempotent (st stGate : StoreSt) (tok lid tok2 lid2 : Nat)
    (l1 l2 : List Nat)
    (htok : lookupTok st.tokens tok = some (lid, true))
    (hidle : st.isDispatching = false)
    (hsplit : st.nextListeners = l1 ++ lid :: l2)
    (hnotin : lid ∉ l1)
    (htokG : lookupTok stGate.tokens tok2 = some (lid2, true))
    (hgate : stGate.isDispatching = true) :
    unsubscribe tok st
      = (Except.ok (), { st with tokens := setTokUnsub st.tokens tok,
                                 nextListeners := l1 ++ l2 })
    ∧ unsubscribe tok { st with tokens := setTokUnsub st.tokens tok,
                                nextListeners := l1 ++ l2 }
      = (Except.ok (), { st with tokens := setTokUnsub st.tokens tok,
                                 nextListeners := l1 ++ l2 })
    ∧ unsubscribe tok2 stGate = (Except.error unsubscribeGateMsg, stGate) := by
  refine ⟨?_, ?_, unsubscribe_gate_live tok2 stGate lid2 htokG hgate⟩
  · rw [unsubscribe_live tok st lid htok hidle, hsplit,
      spliceOut_append_cons l1 l2 lid hnotin]
  · exact unsubscribe_dead tok _ lid (lookupTok_setTokUnsub st.tokens tok lid true htok)

theorem c9_unsubscribe_idempotent_witness :
    unsubscribe 0 stC9
      = (Except.ok (), { stC9 with tokens := setTokUnsub stC9.tokens 0,
                                   nextListeners := [3] ++ [4] })
    ∧ unsubscribe 0 { stC9 with tokens := setTokUnsub stC9.tokens 0,
                                nextListeners := [3] ++ [4] }
      = (Except.ok (), { stC9 with tokens := setTokUnsub stC9.tokens 0,
                                   nextListeners := [3] ++ [4] })
    ∧ unsubscribe 0 stC9gate = (Except.error unsubscribeGateMsg, stC9gate) :=
  c9_unsubscribe_idempotent stC9 stC9gate 0 5 0 5 [3] [4] rfl rfl rfl (by decide) rfl rfl

/-- C5: the dispatch installed by `applyMiddleware(M1, M2)` nests the
middlewares with the leftmost outermost: structurally, the chain applied
to the base dispatch is `M1 api (M2 api base)` (so `M2`'s wrapped
dispatch is `M1`'s `next` and the raw dispatch is `M2`'s `next`), and for
entry/exit-logging middlewares and any single dispatched action the
observed order is entry `M1`, `M2`, then the base dispatch, then exit
`M2`, `M1`. -/
theorem c5_middleware_order (api : MiddlewareAPI) (action : JSValue) (log : List String)
    (m1 m2 : Middleware) (base : DFn) :
    applyMiddlewareDispatch [m1, m2] api base = m1 api (m2 api base)
    ∧ applyMiddlewareDispatch [logMW "M1", logMW "M2"] api baseLogDispatch action log
      = (Except.ok action,
         log ++ ["enter M1", "enter M2", "base", "exit M2", "exit M1"]) := by
  constructor
  · rfl
  · show (Except.ok action,
        ((((log ++ ["enter M1"]) ++ ["enter M2"]) ++ ["base"]) ++ ["exit M2"]) ++ ["exit M1"])
      = (Except.ok action,
         log ++ ["enter M1", "enter M2", "base", "exit M2", "exit M1"])
    simp

/-- C6: the composer — `compose []` is the identity; `compose [f]` is
`f` itself (definitional equality, the embedding's counterpart of
reference identity / no wrapping); and for every list of unary functions
`compose` agrees with the nested right-to-left application
`f1 (f2 (… (fn x)))` in which the rightmost function receives the
original argument and every other function exactly the previous
result. -/
theorem c6_compose_right_to_left (α : Type) (l : List (α → α)) (f : α → α) (x : α) :
    compose ([] : List (α → α)) x = x
    ∧ compose [f] = f
    ∧ compose l x = composeSpec l x := by
  refine ⟨rfl, rfl, ?_⟩
  cases l with
  | nil => rfl
  | cons g t =>
    cases t with
    | nil => rfl
    | cons g2 t2 =>
      show List.foldl (fun a b => fun args => a (b args)) g (g2 :: t2) x
        = composeSpec (g :: g2 :: t2) x
      rw [compose_foldl α (g2 :: t2) g x]
      rfl

/-- C8 (counterexample): for `reducer1` defaulting to `{x: 1}` and
`reducer2` defaulting to `{y: 2}`, after `createStore(reducer1)` and
`replaceReducer(reducer2)`, `getState()` returns `{x: 1}` — the replace
dispatch feeds the existing state `{x: 1}` to `reducer2`, which returns
it unchanged — and not `{y: 2}` as the claim states. -/
theorem c8_replace_counterexample :
    getState (replaceReducer envNoop 1 (ReducerArg.fn reducer2)
        (createStore envNoop 1 reducer1 JSValue.undef).2).2
      = Except.ok (JSValue.objV [("x", JSValue.numV 1)])
    ∧ ¬ (getState (replaceReducer envNoop 1 (ReducerArg.fn reducer2)
        (createStore envNoop 1 reducer1 JSValue.undef).2).2
      = Except.ok (JSValue.objV [("y", JSValue.numV 2)])) := by
  constructor
  · rfl
  · intro h
    have h1 : getState (replaceReducer envNoop 1 (ReducerArg.fn reducer2)
        (createStore envNoop 1 reducer1 JSValue.undef).2).2
        = Except.ok (JSValue.objV [("x", JSValue.numV 1)]) := rfl
    rw [h1] at h
    simp only [Except.ok.injEq, JSValue.objV.injEq, List.cons.injEq, Prod.mk.injEq] at h
    exact absurd h.1.1 (by decide)

/-- C8 (amended): `replaceReducer` fails on a non-function argument;
otherwise it installs the new reducer (the installed reducer after the
call is exactly the argument, whatever the dispatch of the reserved
replace action does) and immediately dispatches the reserved replace
action; for `reducer1` defaulting to `{x: 1}` and `reducer2` defaulting
to `{y: 2}`, after `replaceReducer(reducer2)` the state is `{x: 1}` (the
replace dispatch hands the existing state to the new reducer, which a
defaulting reducer returns unchanged), not `{y: 2}`. -/
theorem c8_replace_swaps_reducer_and_dispatches :
    (∀ (env : Nat → Prog) (fuel : Nat) (st : StoreSt) (v : JSValue),
      replaceReducer env fuel (ReducerArg.notFn v) st
        = (Except.error "Expected the nextReducer to be a function.", st))
    ∧ (∀ (env : Nat → Prog) (fuel : Nat) (r : Reducer) (st : StoreSt),
      ((replaceReducer env fuel (ReducerArg.fn r) st).2).currentReducer = r)
    ∧ getState (replaceReducer envNoop 1 (ReducerArg.fn reducer2)
        (createStore envNoop 1 reducer1 JSValue.undef).2).2
      = Except.ok (JSValue.objV [("x", JSValue.numV 1)]) := by
  refine ⟨fun env fuel st v => rfl, ?_, rfl⟩
  intro env fuel r st
  show ((match dispatch env fuel (JSValue.objV [("type", JSValue.strV actionTypeReplace)])
        { st with currentReducer := r } with
      | (Except.error e, st1) => ((Except.error e : Except String Unit), st1)
      | (Except.ok _, st1) => (Except.ok (), st1)).2).currentReducer = r
  have hf := dispatch_reducer_frame env fuel
    (JSValue.objV [("type", JSValue.strV actionTypeReplace)]) { st with currentReducer := r }
  rcases hd : dispatch env fuel (JSValue.objV [("type", JSValue.strV actionTypeReplace)])
      { st with currentReducer := r } with ⟨res, st1⟩
  rw [hd] at hf
  cases res with
  | error e => exact hf
  | ok w => exact hf

/-- C10: if the reducer returns `v` normally but a snapshot listener
`tId` raises during the notification phase (the listeners before it
being no-ops), the error propagates to the dispatch caller, yet the new
state `v` is already committed — `getState` on the resulting store
returns `v`, not the pre-dispatch state — the gate is clear, and the
`invoked` log extends only by the listeners up to and including `tId`:
the snapshot members positioned after the throwing listener are not
invoked during that dispatch. -/
theorem c10_listener_throw_state_committed (env : Nat → Prog) (fuel : Nat) (st : StoreSt)
    (a v : JSValue) (msg : String) (pre post : List Nat) (tId : Nat)
    (hidle : st.isDispatching = false)
    (hsnap : st.nextListeners = pre ++ tId :: post)
    (h1 : isPlainObject a = true) (h2 : isUndefined (getField a "type") = false)
    (hpre : ∀ x ∈ pre, env x = Prog.retV JSValue.undef)
    (hT : env tId = Prog.throwErr msg)
    (hred : (runProg (dispatch env fuel) (st.currentReducer st.currentState a)
      { st with isDispatching := true }).1 = Except.ok v) :
    dispatch env (fuel + 1) a st
      = (Except.error msg,
         { st with currentState := v,
                   currentListeners := pre ++ tId :: post,
                   invoked := st.invoked ++ (pre ++ [tId]) })
    ∧ getState (dispatch env (fuel + 1) a st).2 = Except.ok v
    ∧ (dispatch env (fuel + 1) a st).2.isDispatching = false := by
  have hmain : dispatch env (fuel + 1) a st
      = (Except.error msg,
         { st with currentState := v,
                   currentListeners := pre ++ tId :: post,
                   invoked := st.invoked ++ (pre ++ [tId]) }) := by
    obtain ⟨red, cs, cl, nl, gate, tks, ntid, inv⟩ := st
    obtain rfl : gate = false := hidle
    obtain rfl : nl = pre ++ tId :: post := hsnap
    rw [dispatch_reducer_ok_mk env fuel a red cs cl (pre ++ tId :: post) tks ntid inv v
      h1 h2 hred]
    rw [runListeners_scenario_throw env (dispatch env fuel) pre post tId msg
      (StoreSt.mk red v (pre ++ tId :: post) (pre ++ tId :: post) false tks ntid inv) hT hpre]
  refine ⟨hmain, ?_, ?_⟩
  · rw [hmain]
    simp [getState, hidle]
  · rw [hmain]
    exact hidle

theorem c10_listener_throw_state_committed_witness :
    dispatch envC10 1 actA stC10
      = (Except.error "listener boom",
         { stC10 with currentState := JSValue.numV 0,
                      currentListeners := [1] ++ 0 :: [2],
                      invoked := stC10.invoked ++ ([1] ++ [0]) })
    ∧ getState (dispatch envC10 1 actA stC10).2 = Except.ok (JSValue.numV 0)
    ∧ (dispatch envC10 1 actA stC10).2.isDispatching = false :=
  c10_listener_throw_state_committed envC10 0 stC10 actA (JSValue.numV 0) "listener boom"
    [1] [2] 0 rfl rfl rfl rfl
    (by
      intro x hx
      rw [List.mem_singleton] at hx
      subst hx
      rfl)
    rfl rfl

/-- C1: for a dispatch whose (pure) reducer returns normally, if
snapshot listener `aId` subscribes a new listener `bId` (not previously
registered or invoked) while the other snapshot members are no-ops, then
the dispatch succeeds, `bId` is not invoked during that dispatch's
notification phase (it never enters the `invoked` log), `bId` is
appended to the working list, and a next dispatch — whose snapshot is
the updated working list — succeeds and does invoke `bId`. -/
theorem c1_snapshot_isolation_subscribe (env : Nat → Prog) (fuel : Nat) (st : StoreSt)
    (a1 a2 : JSValue) (f : JSValue → JSValue → JSValue)
    (pre post : List Nat) (aId bId : Nat)
    (hidle : st.isDispatching = false)
    (hsnap : st.nextListeners = pre ++ aId :: post)
    (hR : st.currentReducer = fun s act => Prog.retV (f s act))
    (h1a : isPlainObject a1 = true) (h2a : isUndefined (getField a1 "type") = false)
    (h1b : isPlainObject a2 = true) (h2b : isUndefined (getField a2 "type") = false)
    (hA : env aId = Prog.subscribeL bId (fun _ => Prog.retV JSValue.undef))
    (hpre : ∀ x ∈ pre, env x = Prog.retV JSValue.undef)
    (hpost : ∀ x ∈ post, env x = Prog.retV JSValue.undef)
    (henvB : env bId = Prog.retV JSValue.undef)
    (hbPre : bId ∉ pre) (hbPost : bId ∉ post) (hbA : bId ≠ aId)
    (hbInv : bId ∉ st.invoked) :
    (dispatch env (fuel + 1) a1 st).1 = Except.ok a1
    ∧ bId ∉ (dispatch env (fuel + 1) a1 st).2.invoked
    ∧ (dispatch env (fuel + 1) a1 st).2.nextListeners = (pre ++ aId :: post) ++ [bId]
    ∧ (dispatch env (fuel + 1) a2 (dispatch env (fuel + 1) a1 st).2).1 = Except.ok a2
    ∧ bId ∈ (dispatch env (fuel + 1) a2 (dispatch env (fuel + 1) a1 st).2).2.invoked := by
  have hd1 := dispatch_scenario_subscribe env fuel st a1 f pre post aId bId
    hidle hsnap hR h1a h2a hA hpre hpost
  have hd2 := dispatch_scenario_subscribe env fuel ((dispatch env (fuel + 1) a1 st).2) a2 f
    pre (post ++ [bId]) aId bId
    (by rw [hd1]; exact hidle)
    (by rw [hd1]; show (pre ++ aId :: post) ++ [bId] = pre ++ aId :: (post ++ [bId]); simp)
    (by rw [hd1]; exact hR)
    h1b h2b hA hpre
    (by
      intro x hx
      rcases List.mem_append.mp hx with h | h
      · exact hpost x h
      · rw [List.mem_singleton] at h
        rw [h]
        exact henvB)
  refine ⟨by rw [hd1], ?_, by rw [hd1], by rw [hd2], ?_⟩
  · rw [hd1]
    show bId ∉ st.invoked ++ (pre ++ aId :: post)
    simp only [List.mem_append, List.mem_cons]
    push_neg
    exact ⟨hbInv, hbPre, hbA, hbPost⟩
  · rw [hd2]
    show bId ∈ ((dispatch env (fuel + 1) a1 st).2).invoked
      ++ (pre ++ aId :: (post ++ [bId]))
    simp

theorem c1_snapshot_isolation_subscribe_witness :
    (dispatch envC1 1 actA stC1).1 = Except.ok actA
    ∧ (9 : Nat) ∉ (dispatch envC1 1 actA stC1).2.invoked
    ∧ (dispatch envC1 1 actA stC1).2.nextListeners = ([1] ++ 0 :: [2]) ++ [9]
    ∧ (dispatch envC1 1 actA (dispatch envC1 1 actA stC1).2).1 = Except.ok actA
    ∧ (9 : Nat) ∈ (dispatch envC1 1 actA (dispatch envC1 1 actA stC1).2).2.invoked :=
  c1_snapshot_isolation_subscribe envC1 0 stC1 actA actA (fun s _ => s) [1] [2] 0 9
    rfl rfl rfl rfl rfl rfl rfl rfl
    (by
      intro x hx
      rw [List.mem_singleton] at hx
      subst hx
      rfl)
    (by
      intro x hx
      rw [List.mem_singleton] at hx
      subst hx
      rfl)
    rfl (by decide) (by decide) (by decide) (by decide)

/-- C2: for a dispatch whose (pure) reducer returns normally, if
snapshot listener `aId` unsubscribes (via its live token) a listener
`cId` that was registered before the dispatch began and appears later in
the committed snapshot (`pre ++ aId :: (mid ++ cId :: post)`), then the
dispatch succeeds and `cId` is still invoked during that dispatch's
notification phase; the removal only deletes `cId`'s occurrence from the
working list, so the next dispatch — over the updated snapshot — adds
exactly `pre ++ aId :: (mid ++ post)` to the `invoked` log, a block that
does not contain `cId`: removal only affects subsequent dispatches. -/
theorem c2_snapshot_isolation_unsubscribe (env : Nat → Prog) (fuel : Nat) (st : StoreSt)
    (a1 a2 : JSValue) (f : JSValue → JSValue → JSValue)
    (pre mid post : List Nat) (aId tokC cId : Nat)
    (hidle : st.isDispatching = false)
    (hsnap : st.nextListeners = pre ++ aId :: (mid ++ cId :: post))
    (hR : st.currentReducer = fun s act => Prog.retV (f s act))
    (h1a : isPlainObject a1 = true) (h2a : isUndefined (getField a1 "type") = false)
    (h1b : isPlainObject a2 = true) (h2b : isUndefined (getField a2 "type") = false)
    (htok : lookupTok st.tokens tokC = some (cId, true))
    (hA : env aId = Prog.unsubscribeT tokC (fun _ => Prog.retV JSValue.undef))
    (hpre : ∀ x ∈ pre, env x = Prog.retV JSValue.undef)
    (hmid : ∀ x ∈ mid, env x = Prog.retV JSValue.undef)
    (hcEnv : env cId = Prog.retV JSValue.undef)
    (hpost : ∀ x ∈ post, env x = Prog.retV JSValue.undef)
    (hcPre : cId ∉ pre) (hcA : cId ≠ aId) (hcMid : cId ∉ mid) (hcPost : cId ∉ post) :
    (dispatch env (fuel + 1) a1 st).1 = Except.ok a1
    ∧ cId ∈ (dispatch env (fuel + 1) a1 st).2.invoked
    ∧ (dispatch env (fuel + 1) a1 st).2.nextListeners = pre ++ aId :: (mid ++ post)
    ∧ (dispatch env (fuel + 1) a2 (dispatch env (fuel + 1) a1 st).2).1 = Except.ok a2
    ∧ (dispatch env (fuel + 1) a2 (dispatch env (fuel + 1) a1 st).2).2.invoked
      = (dispatch env (fuel + 1) a1 st).2.invoked ++ (pre ++ aId :: (mid ++ post))
    ∧ cId ∉ pre ++ aId :: (mid ++ post) := by
  have hcNotIn : cId ∉ pre ++ aId :: mid := by
    simp only [List.mem_append, List.mem_cons]
    push_neg
    exact ⟨hcPre, hcA, hcMid⟩
  have hsplice : spliceOut (pre ++ aId :: (mid ++ cId :: post)) cId
      = pre ++ aId :: (mid ++ post) := by
    have hshape : pre ++ aId :: (mid ++ cId :: post) = (pre ++ aId :: mid) ++ cId :: post := by
      simp
    rw [hshape, spliceOut_append_cons (pre ++ aId :: mid) post cId hcNotIn]
    simp
  have hd1 := dispatch_scenario_unsubscribe env fuel st a1 f pre (mid ++ cId :: post)
    aId tokC cId hidle hsnap hR h1a h2a htok hA hpre
    (by
      intro x hx
      rcases List.mem_append.mp hx with h | h
      · exact hmid x h
      · rcases List.mem_cons.mp h with h | h
        · rw [h]
          exact hcEnv
        · exact hpost x h)
  have hd2 := dispatch_scenario_unsubscribe_dead env fuel ((dispatch env (fuel + 1) a1 st).2)
    a2 f pre (mid ++ post) aId tokC cId
    (by rw [hd1]; exact hidle)
    (by rw [hd1]; exact hsplice)
    (by rw [hd1]; exact hR)
    h1b h2b
    (by rw [hd1]; exact lookupTok_setTokUnsub st.tokens tokC cId true htok)
    hA hpre
    (by
      intro x hx
      rcases List.mem_append.mp hx with h | h
      · exact hmid x h
      · exact hpost x h)
  have hcBlock : cId ∉ pre ++ aId :: (mid ++ post) := by
    simp only [List.mem_append, List.mem_cons]
    push_neg
    exact ⟨hcPre, hcA, hcMid, hcPost⟩
  refine ⟨by rw [hd1], ?_, by rw [hd1]; exact hsplice, by rw [hd2], by rw [hd2, hd1], hcBlock⟩
  rw [hd1]
  show cId ∈ st.invoked ++ (pre ++ aId :: (mid ++ cId :: post))
  simp

theorem c2_snapshot_isolation_unsubscribe_witness :
    (dispatch envC2 1 actA stC2).1 = Except.ok actA
    ∧ (2 : Nat) ∈ (dispatch envC2 1 actA stC2).2.invoked
    ∧ (dispatch envC2 1 actA stC2).2.nextListeners = [1] ++ 0 :: ([3] ++ [4])
    ∧ (dispatch envC2 1 actA (dispatch envC2 1 actA stC2).2).1 = Except.ok actA
    ∧ (dispatch envC2 1 actA (dispatch envC2 1 actA stC2).2).2.invoked
      = (dispatch envC2 1 actA stC2).2.invoked ++ ([1] ++ 0 :: ([3] ++ [4]))
    ∧ (2 : Nat) ∉ [1] ++ 0 :: ([3] ++ [4]) :=
  c2_snapshot_isolation_unsubscribe envC2 0 stC2 actA actA (fun s _ => s)
    [1] [3] [4] 0 7 2
    rfl rfl rfl rfl rfl rfl rfl rfl rfl
    (by
      intro x hx
      rw [List.mem_singleton] at hx
      subst hx
      rfl)
    (by
      intro x hx
      rw [List.mem_singleton] at hx
      subst hx
      rfl)
    rfl
    (by
      intro x hx
      rw [List.mem_singleton] at hx
      subst hx
      rfl)
    (by decide) (by decide) (by decide) (by decide)

end Redux
